import Mathlib

/-!
Verification of the ES2021 logical-assignment-operators downleveling pass
(crates/oxc_transformer/src/es2021/logical_assignment_operators.rs).

The pass rewrites a compound logical assignment such as `a &&= c` into
`a && (a = c)`, memoising side-effecting member-target subexpressions in
fresh scratch variables so that they are evaluated exactly once.
-/

namespace LogicalAssignOps

/-- Source span of a node (oxc_span::Span, fields start and end). -/
structure Span where
  start : Nat
  stop : Nat
deriving DecidableEq, Repr

/-- Span::default(), the empty span used for synthesized nodes. -/
def Span.default : Span := { start := 0, stop := 0 }

/-- oxc_syntax AssignmentOperator, restricted to the tags this pass inspects;
all arithmetic/bitwise compound tags collapse into the catch-all Other. -/
inductive AssignmentOperator where
  | Assign
  | LogicalAnd
  | LogicalOr
  | LogicalNullish
  | Other
deriving DecidableEq, Repr

/-- oxc_syntax LogicalOperator. -/
inductive LogicalOperator where
  | And
  | Or
  | Coalesce
deriving DecidableEq, Repr

/-- An identifier reference node (span and name). -/
structure IdentifierReference where
  span : Span
  name : String
deriving DecidableEq, Repr

mutual

/-- oxc_ast Expression, restricted to the constructors this pass builds or
inspects; every other expression kind (calls, literals, ...) is opaque to the
pass and collapses into otherExpr, identified by a span and a tag. -/
inductive Expression where
  | identifierReferenceExpr (ident : IdentifierReference)
  | memberExpr (m : MemberExpression)
  | assignmentExpr (a : AssignmentExpression)
  | logicalExpr (span : Span) (left : Expression) (operator : LogicalOperator)
      (right : Expression)
  | otherExpr (span : Span) (tag : Nat)

/-- oxc_ast MemberExpression. -/
inductive MemberExpression where
  | staticMemberExpression (span : Span) (object : Expression) (property : String)
  | computedMemberExpression (span : Span) (object : Expression) (expression : Expression)
  | privateFieldExpression (span : Span) (object : Expression) (field : String)

/-- oxc_ast AssignmentExpression: span, operator, left target, right value. -/
inductive AssignmentExpression where
  | mk (span : Span) (operator : AssignmentOperator) (left : AssignmentTarget)
      (right : Expression)

/-- oxc_ast SimpleAssignmentTarget; the TypeScript-annotated variants collapse
into tsTarget. -/
inductive SimpleAssignmentTarget where
  | assignmentTargetIdentifier (ident : IdentifierReference)
  | memberAssignmentTarget (m : MemberExpression)
  | tsTarget (tag : Nat)

/-- oxc_ast AssignmentTarget: simple target or destructuring target. -/
inductive AssignmentTarget where
  | simpleAssignmentTarget (t : SimpleAssignmentTarget)
  | assignmentTargetPattern (tag : Nat)

end

/-- A scratch variable declarator record (name only, no initializer). -/
structure VariableDeclarator where
  name : String
deriving DecidableEq, Repr

/-- The mutable state of one pass instance: the append-only accumulator of
scratch declarators (the vars field of LogicalAssignmentOperators) together
with a counter used to mint fresh names. -/
structure TransformState where
  vars : List VariableDeclarator
  uid : Nat
deriving DecidableEq, Repr

/-- Modelled from the spec: the name-mangling scheme for scratch variables is
left unspecified by the source beyond a uniqueness requirement, so fresh names
are minted from a monotone counter. -/
def mintName (uid : Nat) : String := "_t" ++ toString uid

/-- Modelled from the spec: the memoization decision engine classifies a
subexpression as safe-to-duplicate exactly when it is syntactically a bare
binding reference; every other shape requires a scratch variable. -/
def memoNeeded : Expression → Bool
  | Expression.identifierReferenceExpr _ => false
  | _ => true

/-- Modelled from the spec: CreateVars::maybe_generate_memoised (defined in
the transformer's utils module, outside this file's source). If the
subexpression is a bare binding reference it returns no temp and leaves the
accumulator alone; otherwise it mints a fresh unique name, appends a scratch
declarator with no initializer to the accumulator, and returns the temp
identifier. -/
def maybe_generate_memoised (st : TransformState) (expr : Expression) :
    Option IdentifierReference × TransformState :=
  if memoNeeded expr then
    let name := mintName st.uid
    (some { span := Span.default, name := name },
     { vars := st.vars ++ [{ name := name }], uid := st.uid + 1 })
  else
    (none, st)

/-- Lines 54-59: map a compound logical assignment operator to the
corresponding plain logical operator; any other operator aborts the rewrite. -/
def mapLogicalOp : AssignmentOperator → Option LogicalOperator
  | AssignmentOperator.LogicalAnd => some LogicalOperator.And
  | AssignmentOperator.LogicalOr => some LogicalOperator.Or
  | AssignmentOperator.LogicalNullish => some LogicalOperator.Coalesce
  | _ => none

/-- Lines 65-197: classify the assignment target and build the pair
(left_expr, assign_target); returns none on the ineligible shapes where the
source does an early return (pattern targets, private-field targets,
TypeScript-annotated simple targets). Threads the accumulator state through
the memoization calls. -/
def computeLeftAndTarget (st : TransformState) (aleft : AssignmentTarget) :
    Option (Expression × SimpleAssignmentTarget × TransformState) :=
  match aleft with
  | AssignmentTarget.simpleAssignmentTarget target =>
    match target with
    | SimpleAssignmentTarget.assignmentTargetIdentifier ident =>
      some (Expression.identifierReferenceExpr ident,
            SimpleAssignmentTarget.assignmentTargetIdentifier ident, st)
    | SimpleAssignmentTarget.memberAssignmentTarget m =>
      match m with
      | MemberExpression.staticMemberExpression mspan obj prop =>
        match maybe_generate_memoised st obj with
        | (some ident, st1) =>
          let right := obj
          let target2 := AssignmentTarget.simpleAssignmentTarget
            (SimpleAssignmentTarget.assignmentTargetIdentifier ident)
          let newObject := Expression.assignmentExpr
            (AssignmentExpression.mk Span.default AssignmentOperator.Assign target2 right)
          some (Expression.memberExpr
                  (MemberExpression.staticMemberExpression mspan newObject prop),
                SimpleAssignmentTarget.memberAssignmentTarget
                  (MemberExpression.staticMemberExpression mspan
                    (Expression.identifierReferenceExpr ident) prop),
                st1)
        | (none, st1) =>
          some (Expression.memberExpr
                  (MemberExpression.staticMemberExpression mspan obj prop),
                SimpleAssignmentTarget.memberAssignmentTarget m, st1)
      | MemberExpression.computedMemberExpression mspan obj key =>
        match maybe_generate_memoised st obj with
        | (some ident, st1) =>
          let propertyIdent := (maybe_generate_memoised st1 key).fst
          let st2 := (maybe_generate_memoised st1 key).snd
          let right := obj
          let target2 := AssignmentTarget.simpleAssignmentTarget
            (SimpleAssignmentTarget.assignmentTargetIdentifier ident)
          let newObject := Expression.assignmentExpr
            (AssignmentExpression.mk Span.default AssignmentOperator.Assign target2 right)
          let newKey :=
            match propertyIdent with
            | some pid => Expression.assignmentExpr
                (AssignmentExpression.mk Span.default AssignmentOperator.Assign
                  (AssignmentTarget.simpleAssignmentTarget
                    (SimpleAssignmentTarget.assignmentTargetIdentifier pid)) key)
            | none => key
          let tgtKey :=
            match propertyIdent with
            | some pid => Expression.identifierReferenceExpr pid
            | none => key
          some (Expression.memberExpr
                  (MemberExpression.computedMemberExpression mspan newObject newKey),
                SimpleAssignmentTarget.memberAssignmentTarget
                  (MemberExpression.computedMemberExpression mspan
                    (Expression.identifierReferenceExpr ident) tgtKey),
                st2)
        | (none, st1) =>
          let propertyIdent := (maybe_generate_memoised st1 key).fst
          let st2 := (maybe_generate_memoised st1 key).snd
          let newKey :=
            match propertyIdent with
            | some pid => Expression.assignmentExpr
                (AssignmentExpression.mk Span.default AssignmentOperator.Assign
                  (AssignmentTarget.simpleAssignmentTarget
                    (SimpleAssignmentTarget.assignmentTargetIdentifier pid)) key)
            | none => key
          let tgtKey :=
            match propertyIdent with
            | some pid => Expression.identifierReferenceExpr pid
            | none => key
          some (Expression.memberExpr
                  (MemberExpression.computedMemberExpression mspan obj newKey),
                SimpleAssignmentTarget.memberAssignmentTarget
                  (MemberExpression.computedMemberExpression mspan obj tgtKey),
                st2)
      | MemberExpression.privateFieldExpression _ _ _ => none
    | SimpleAssignmentTarget.tsTarget _ => none
  | AssignmentTarget.assignmentTargetPattern _ => none

/-- Lines 50-208: LogicalAssignmentOperators::transform_expression. The node
is returned unchanged unless it is an assignment expression with a compound
logical operator and an eligible target; otherwise a logical guard expression
is assembled, relocating the original right-hand side into a nested plain
assignment (lines 199-207), and the accumulator possibly grows. -/
def transform_expression (st : TransformState) (expr : Expression) :
    Expression × TransformState :=
  match expr with
  | Expression.assignmentExpr (AssignmentExpression.mk _aspan aop aleft aright) =>
    match mapLogicalOp aop with
    | none => (expr, st)
    | some operator =>
      match computeLeftAndTarget st aleft with
      | none => (expr, st)
      | some (left_expr, assign_target, st1) =>
        let assign_op := AssignmentOperator.Assign
        let assign_target2 := AssignmentTarget.simpleAssignmentTarget assign_target
        let right := Expression.assignmentExpr
          (AssignmentExpression.mk Span.default assign_op assign_target2 aright)
        (Expression.logicalExpr Span.default left_expr operator right, st1)
  | _ => (expr, st)

/-- Modelled from the spec: the target-version identifiers used by the
eligibility gate (TransformTarget in the transformer's options module, outside
this file's source), ordered by year. -/
inductive TransformTarget where
  | ES5
  | ES2015
  | ES2016
  | ES2017
  | ES2018
  | ES2019
  | ES2020
  | ES2021
  | ES2022
  | ESNext
deriving DecidableEq, Repr

/-- Numeric rank used to compare target versions. -/
def TransformTarget.toNat : TransformTarget → Nat
  | TransformTarget.ES5 => 0
  | TransformTarget.ES2015 => 1
  | TransformTarget.ES2016 => 2
  | TransformTarget.ES2017 => 3
  | TransformTarget.ES2018 => 4
  | TransformTarget.ES2019 => 5
  | TransformTarget.ES2020 => 6
  | TransformTarget.ES2021 => 7
  | TransformTarget.ES2022 => 8
  | TransformTarget.ESNext => 9

/-- Strict order on target versions. -/
def TransformTarget.lt (a b : TransformTarget) : Bool :=
  a.toNat < b.toNat

/-- The options consulted by the gate: the minimum target version and the
per-feature force flag. -/
structure TransformOptions where
  target : TransformTarget
  logical_assignment_operators : Bool

/-- Lines 37-48: LogicalAssignmentOperators::new instantiates the pass (with
an empty accumulator) exactly when the target predates ES2021 or the force
flag is set. -/
def LogicalAssignmentOperators.new (options : TransformOptions) :
    Option TransformState :=
  if TransformTarget.lt options.target TransformTarget.ES2021 ||
      options.logical_assignment_operators then
    some { vars := [], uid := 0 }
  else
    none

/-- The operator mapping stated by the spec: `&&=` to `&&`, `||=` to `||`,
`??=` to `??`. -/
def specLogicalOpMapping (aop : AssignmentOperator) (lop : LogicalOperator) : Prop :=
  (aop = AssignmentOperator.LogicalAnd ∧ lop = LogicalOperator.And) ∨
  (aop = AssignmentOperator.LogicalOr ∧ lop = LogicalOperator.Or) ∨
  (aop = AssignmentOperator.LogicalNullish ∧ lop = LogicalOperator.Coalesce)

/-- Target shapes on which the source does an early return: destructuring
patterns, TypeScript-annotated simple targets, private-field member targets. -/
def badTarget : AssignmentTarget → Bool
  | AssignmentTarget.assignmentTargetPattern _ => true
  | AssignmentTarget.simpleAssignmentTarget t =>
    match t with
    | SimpleAssignmentTarget.tsTarget _ => true
    | SimpleAssignmentTarget.memberAssignmentTarget
        (MemberExpression.privateFieldExpression _ _ _) => true
    | _ => false

/-- Expression shapes the pass leaves untouched: not an assignment, operator
not a compound logical operator, or an ineligible target. -/
def ineligibleShape (expr : Expression) : Bool :=
  match expr with
  | Expression.assignmentExpr (AssignmentExpression.mk _ aop aleft _) =>
    match mapLogicalOp aop with
    | none => true
    | some _ => badTarget aleft
  | _ => true

/-- Number of scratch declarations the rewrite is expected to append: one for
a memoised member object, one more only for a memoised computed key, zero
otherwise. -/
def declCount (expr : Expression) : Nat :=
  match expr with
  | Expression.assignmentExpr (AssignmentExpression.mk _ aop aleft _) =>
    match mapLogicalOp aop with
    | none => 0
    | some _ =>
      match aleft with
      | AssignmentTarget.simpleAssignmentTarget
          (SimpleAssignmentTarget.memberAssignmentTarget
            (MemberExpression.staticMemberExpression _ obj _)) =>
        if memoNeeded obj then 1 else 0
      | AssignmentTarget.simpleAssignmentTarget
          (SimpleAssignmentTarget.memberAssignmentTarget
            (MemberExpression.computedMemberExpression _ obj key)) =>
        (if memoNeeded obj then 1 else 0) + (if memoNeeded key then 1 else 0)
      | _ => 0
  | _ => 0

mutual

/-- Number of occurrences of the opaque marker node with span s and tag t
inside an expression. -/
def countMarkerExpr (s : Span) (t : Nat) : Expression → Nat
  | Expression.identifierReferenceExpr _ => 0
  | Expression.memberExpr m => countMarkerMember s t m
  | Expression.assignmentExpr a => countMarkerAssign s t a
  | Expression.logicalExpr _ l _ r => countMarkerExpr s t l + countMarkerExpr s t r
  | Expression.otherExpr s2 t2 => if s2 = s ∧ t2 = t then 1 else 0

/-- Marker occurrences inside a member expression. -/
def countMarkerMember (s : Span) (t : Nat) : MemberExpression → Nat
  | MemberExpression.staticMemberExpression _ obj _ => countMarkerExpr s t obj
  | MemberExpression.computedMemberExpression _ obj key =>
      countMarkerExpr s t obj + countMarkerExpr s t key
  | MemberExpression.privateFieldExpression _ obj _ => countMarkerExpr s t obj

/-- Marker occurrences inside an assignment expression. -/
def countMarkerAssign (s : Span) (t : Nat) : AssignmentExpression → Nat
  | AssignmentExpression.mk _ _ left right =>
      countMarkerTarget s t left + countMarkerExpr s t right

/-- Marker occurrences inside an assignment target. -/
def countMarkerTarget (s : Span) (t : Nat) : AssignmentTarget → Nat
  | AssignmentTarget.simpleAssignmentTarget tg => countMarkerSimple s t tg
  | AssignmentTarget.assignmentTargetPattern _ => 0

/-- Marker occurrences inside a simple assignment target. -/
def countMarkerSimple (s : Span) (t : Nat) : SimpleAssignmentTarget → Nat
  | SimpleAssignmentTarget.assignmentTargetIdentifier _ => 0
  | SimpleAssignmentTarget.memberAssignmentTarget m => countMarkerMember s t m
  | SimpleAssignmentTarget.tsTarget _ => 0

end

/-- Span carried by a member expression node. -/
def MemberExpression.spanOf : MemberExpression → Span
  | MemberExpression.staticMemberExpression s _ _ => s
  | MemberExpression.computedMemberExpression s _ _ => s
  | MemberExpression.privateFieldExpression s _ _ => s

/-- Span carried by an expression node. -/
def Expression.spanOf : Expression → Span
  | Expression.identifierReferenceExpr ident => ident.span
  | Expression.memberExpr m => m.spanOf
  | Expression.assignmentExpr (AssignmentExpression.mk s _ _ _) => s
  | Expression.logicalExpr s _ _ _ => s
  | Expression.otherExpr s _ => s

theorem computeLeftAndTarget_of_badTarget (st : TransformState) (aleft : AssignmentTarget)
    (h : badTarget aleft = true) : computeLeftAndTarget st aleft = none := by
  cases aleft with
  | assignmentTargetPattern tag => rfl
  | simpleAssignmentTarget t =>
    cases t with
    | tsTarget tag => rfl
    | assignmentTargetIdentifier ident => simp [badTarget] at h
    | memberAssignmentTarget m =>
      cases m with
      | privateFieldExpression sp obj f => rfl
      | staticMemberExpression sp obj p => simp [badTarget] at h
      | computedMemberExpression sp obj k => simp [badTarget] at h

theorem transform_of_ineligible (st : TransformState) (e : Expression)
    (h : ineligibleShape e = true) : transform_expression st e = (e, st) := by
  cases e with
  | assignmentExpr a =>
    cases a with
    | mk aspan aop aleft aright =>
      cases aop with
      | Assign => rfl
      | Other => rfl
      | LogicalAnd =>
        have hbt : badTarget aleft = true := by
          simpa [ineligibleShape, mapLogicalOp] using h
        simp [transform_expression, mapLogicalOp,
          computeLeftAndTarget_of_badTarget st aleft hbt]
      | LogicalOr =>
        have hbt : badTarget aleft = true := by
          simpa [ineligibleShape, mapLogicalOp] using h
        simp [transform_expression, mapLogicalOp,
          computeLeftAndTarget_of_badTarget st aleft hbt]
      | LogicalNullish =>
        have hbt : badTarget aleft = true := by
          simpa [ineligibleShape, mapLogicalOp] using h
        simp [transform_expression, mapLogicalOp,
          computeLeftAndTarget_of_badTarget st aleft hbt]
  | identifierReferenceExpr ident => rfl
  | memberExpr m => rfl
  | logicalExpr sp l op r => rfl
  | otherExpr sp tag => rfl

theorem transform_ident_eq (st : TransformState) (aspan : Span)
    (aop : AssignmentOperator) (lop : LogicalOperator)
    (hop : specLogicalOpMapping aop lop)
    (ident : IdentifierReference) (c : Expression) :
    transform_expression st
      (Expression.assignmentExpr (AssignmentExpression.mk aspan aop
        (AssignmentTarget.simpleAssignmentTarget
          (SimpleAssignmentTarget.assignmentTargetIdentifier ident)) c)) =
    (Expression.logicalExpr Span.default
      (Expression.identifierReferenceExpr ident) lop
      (Expression.assignmentExpr (AssignmentExpression.mk Span.default
        AssignmentOperator.Assign
        (AssignmentTarget.simpleAssignmentTarget
          (SimpleAssignmentTarget.assignmentTargetIdentifier ident)) c)),
     st) := by
  rcases hop with ⟨h1, h2⟩ | ⟨h1, h2⟩ | ⟨h1, h2⟩ <;> subst h1 <;> subst h2 <;> rfl

theorem transform_static_trivial_eq (st : TransformState) (aspan : Span)
    (aop : AssignmentOperator) (lop : LogicalOperator)
    (hop : specLogicalOpMapping aop lop)
    (mspan : Span) (obj : Expression) (prop : String) (c : Expression)
    (hobj : memoNeeded obj = false) :
    transform_expression st
      (Expression.assignmentExpr (AssignmentExpression.mk aspan aop
        (AssignmentTarget.simpleAssignmentTarget
          (SimpleAssignmentTarget.memberAssignmentTarget
            (MemberExpression.staticMemberExpression mspan obj prop))) c)) =
    (Expression.logicalExpr Span.default
      (Expression.memberExpr (MemberExpression.staticMemberExpression mspan obj prop)) lop
      (Expression.assignmentExpr (AssignmentExpression.mk Span.default
        AssignmentOperator.Assign
        (AssignmentTarget.simpleAssignmentTarget
          (SimpleAssignmentTarget.memberAssignmentTarget
            (MemberExpression.staticMemberExpression mspan obj prop))) c)),
     st) := by
  rcases hop with ⟨h1, h2⟩ | ⟨h1, h2⟩ | ⟨h1, h2⟩ <;> subst h1 <;> subst h2 <;>
    simp [transform_expression, mapLogicalOp, computeLeftAndTarget,
      maybe_generate_memoised, hobj]

theorem transform_static_memo_eq (st : TransformState) (aspan : Span)
    (aop : AssignmentOperator) (lop : LogicalOperator)
    (hop : specLogicalOpMapping aop lop)
    (mspan : Span) (obj : Expression) (prop : String) (c : Expression)
    (hobj : memoNeeded obj = true) :
    transform_expression st
      (Expression.assignmentExpr (AssignmentExpression.mk aspan aop
        (AssignmentTarget.simpleAssignmentTarget
          (SimpleAssignmentTarget.memberAssignmentTarget
            (MemberExpression.staticMemberExpression mspan obj prop))) c)) =
    (Expression.logicalExpr Span.default
      (Expression.memberExpr (MemberExpression.staticMemberExpression mspan
        (Expression.assignmentExpr (AssignmentExpression.mk Span.default
          AssignmentOperator.Assign
          (AssignmentTarget.simpleAssignmentTarget
            (SimpleAssignmentTarget.assignmentTargetIdentifier
              { span := Span.default, name := mintName st.uid })) obj)) prop)) lop
      (Expression.assignmentExpr (AssignmentExpression.mk Span.default
        AssignmentOperator.Assign
        (AssignmentTarget.simpleAssignmentTarget
          (SimpleAssignmentTarget.memberAssignmentTarget
            (MemberExpression.staticMemberExpression mspan
              (Expression.identifierReferenceExpr
                { span := Span.default, name := mintName st.uid }) prop))) c)),
     { vars := st.vars ++ [{ name := mintName st.uid }], uid := st.uid + 1 }) := by
  rcases hop with ⟨h1, h2⟩ | ⟨h1, h2⟩ | ⟨h1, h2⟩ <;> subst h1 <;> subst h2 <;>
    simp [transform_expression, mapLogicalOp, computeLeftAndTarget,
      maybe_generate_memoised, hobj]

theorem transform_computed_both_trivial_eq (st : TransformState) (aspan : Span)
    (aop : AssignmentOperator) (lop : LogicalOperator)
    (hop : specLogicalOpMapping aop lop)
    (mspan : Span) (obj key : Expression) (c : Expression)
    (hobj : memoNeeded obj = false) (hkey : memoNeeded key = false) :
    transform_expression st
      (Expression.assignmentExpr (AssignmentExpression.mk aspan aop
        (AssignmentTarget.simpleAssignmentTarget
          (SimpleAssignmentTarget.memberAssignmentTarget
            (MemberExpression.computedMemberExpression mspan obj key))) c)) =
    (Expression.logicalExpr Span.default
      (Expression.memberExpr (MemberExpression.computedMemberExpression mspan obj key)) lop
      (Expression.assignmentExpr (AssignmentExpression.mk Span.default
        AssignmentOperator.Assign
        (AssignmentTarget.simpleAssignmentTarget
          (SimpleAssignmentTarget.memberAssignmentTarget
            (MemberExpression.computedMemberExpression mspan obj key))) c)),
     st) := by
  rcases hop with ⟨h1, h2⟩ | ⟨h1, h2⟩ | ⟨h1, h2⟩ <;> subst h1 <;> subst h2 <;>
    simp [transform_expression, mapLogicalOp, computeLeftAndTarget,
      maybe_generate_memoised, hobj, hkey]

theorem transform_computed_obj_memo_eq (st : TransformState) (aspan : Span)
    (aop : AssignmentOperator) (lop : LogicalOperator)
    (hop : specLogicalOpMapping aop lop)
    (mspan : Span) (obj key : Expression) (c : Expression)
    (hobj : memoNeeded obj = true) (hkey : memoNeeded key = false) :
    transform_expression st
      (Expression.assignmentExpr (AssignmentExpression.mk aspan aop
        (AssignmentTarget.simpleAssignmentTarget
          (SimpleAssignmentTarget.memberAssignmentTarget
            (MemberExpression.computedMemberExpression mspan obj key))) c)) =
    (Expression.logicalExpr Span.default
      (Expression.memberExpr (MemberExpression.computedMemberExpression mspan
        (Expression.assignmentExpr (AssignmentExpression.mk Span.default
          AssignmentOperator.Assign
          (AssignmentTarget.simpleAssignmentTarget
            (SimpleAssignmentTarget.assignmentTargetIdentifier
              { span := Span.default, name := mintName st.uid })) obj)) key)) lop
      (Expression.assignmentExpr (AssignmentExpression.mk Span.default
        AssignmentOperator.Assign
        (AssignmentTarget.simpleAssignmentTarget
          (SimpleAssignmentTarget.memberAssignmentTarget
            (MemberExpression.computedMemberExpression mspan
              (Expression.identifierReferenceExpr
                { span := Span.default, name := mintName st.uid }) key))) c)),
     { vars := st.vars ++ [{ name := mintName st.uid }], uid := st.uid + 1 }) := by
  rcases hop with ⟨h1, h2⟩ | ⟨h1, h2⟩ | ⟨h1, h2⟩ <;> subst h1 <;> subst h2 <;>
    simp [transform_expression, mapLogicalOp, computeLeftAndTarget,
      maybe_generate_memoised, hobj, hkey]

theorem transform_computed_key_memo_eq (st : TransformState) (aspan : Span)
    (aop : AssignmentOperator) (lop : LogicalOperator)
    (hop : specLogicalOpMapping aop lop)
    (mspan : Span) (obj key : Expression) (c : Expression)
    (hobj : memoNeeded obj = false) (hkey : memoNeeded key = true) :
    transform_expression st
      (Expression.assignmentExpr (AssignmentExpression.mk aspan aop
        (AssignmentTarget.simpleAssignmentTarget
          (SimpleAssignmentTarget.memberAssignmentTarget
            (MemberExpression.computedMemberExpression mspan obj key))) c)) =
    (Expression.logicalExpr Span.default
      (Expression.memberExpr (MemberExpression.computedMemberExpression mspan obj
        (Expression.assignmentExpr (AssignmentExpression.mk Span.default
          AssignmentOperator.Assign
          (AssignmentTarget.simpleAssignmentTarget
            (SimpleAssignmentTarget.assignmentTargetIdentifier
              { span := Span.default, name := mintName st.uid })) key)))) lop
      (Expression.assignmentExpr (AssignmentExpression.mk Span.default
        AssignmentOperator.Assign
        (AssignmentTarget.simpleAssignmentTarget
          (SimpleAssignmentTarget.memberAssignmentTarget
            (MemberExpression.computedMemberExpression mspan obj
              (Expression.identifierReferenceExpr
                { span := Span.default, name := mintName st.uid })))) c)),
     { vars := st.vars ++ [{ name := mintName st.uid }], uid := st.uid + 1 }) := by
  rcases hop with ⟨h1, h2⟩ | ⟨h1, h2⟩ | ⟨h1, h2⟩ <;> subst h1 <;> subst h2 <;>
    simp [transform_expression, mapLogicalOp, computeLeftAndTarget,
      maybe_generate_memoised, hobj, hkey]

theorem transform_computed_both_memo_eq (st : TransformState) (aspan : Span)
    (aop : AssignmentOperator) (lop : LogicalOperator)
    (hop : specLogicalOpMapping aop lop)
    (mspan : Span) (obj key : Expression) (c : Expression)
    (hobj : memoNeeded obj = true) (hkey : memoNeeded key = true) :
    transform_expression st
      (Expression.assignmentExpr (AssignmentExpression.mk aspan aop
        (AssignmentTarget.simpleAssignmentTarget
          (SimpleAssignmentTarget.memberAssignmentTarget
            (MemberExpression.computedMemberExpression mspan obj key))) c)) =
    (Expression.logicalExpr Span.default
      (Expression.memberExpr (MemberExpression.computedMemberExpression mspan
        (Expression.assignmentExpr (AssignmentExpression.mk Span.default
          AssignmentOperator.Assign
          (AssignmentTarget.simpleAssignmentTarget
            (SimpleAssignmentTarget.assignmentTargetIdentifier
              { span := Span.default, name := mintName st.uid })) obj))
        (Expression.assignmentExpr (AssignmentExpression.mk Span.default
          AssignmentOperator.Assign
          (AssignmentTarget.simpleAssignmentTarget
            (SimpleAssignmentTarget.assignmentTargetIdentifier
              { span := Span.default, name := mintName (st.uid + 1) })) key)))) lop
      (Expression.assignmentExpr (AssignmentExpression.mk Span.default
        AssignmentOperator.Assign
        (AssignmentTarget.simpleAssignmentTarget
          (SimpleAssignmentTarget.memberAssignmentTarget
            (MemberExpression.computedMemberExpression mspan
              (Expression.identifierReferenceExpr
                { span := Span.default, name := mintName st.uid })
              (Expression.identifierReferenceExpr
                { span := Span.default, name := mintName (st.uid + 1) })))) c)),
     { vars := st.vars ++ [{ name := mintName st.uid }] ++
         [{ name := mintName (st.uid + 1) }],
       uid := st.uid + 1 + 1 }) := by
  rcases hop with ⟨h1, h2⟩ | ⟨h1, h2⟩ | ⟨h1, h2⟩ <;> subst h1 <;> subst h2 <;>
    simp [transform_expression, mapLogicalOp, computeLeftAndTarget,
      maybe_generate_memoised, hobj, hkey]

theorem maybe_generate_memoised_fst_none (st : TransformState) (e : Expression) :
    (maybe_generate_memoised st e).fst = none ↔ memoNeeded e = false := by
  cases h : memoNeeded e <;> simp [maybe_generate_memoised, h]

/-- Claim C1: for every assignment expression whose target is a bare
identifier and whose operator is one of the three logical compound operators
(mapped as `&&=` to `&&`, `||=` to `||`, `??=` to `??`),
transform_expression replaces the node with the logical expression
`a <op> (a = c)` where c is the original right-hand side, both occurrences of
the identifier are the same reference, and no scratch declaration is
appended. -/
theorem transform_identifier_target (st : TransformState) (aspan : Span)
    (aop : AssignmentOperator) (lop : LogicalOperator)
    (hop : specLogicalOpMapping aop lop)
    (ident : IdentifierReference) (c : Expression) :
    transform_expression st
      (Expression.assignmentExpr (AssignmentExpression.mk aspan aop
        (AssignmentTarget.simpleAssignmentTarget
          (SimpleAssignmentTarget.assignmentTargetIdentifier ident)) c)) =
    (Expression.logicalExpr Span.default
      (Expression.identifierReferenceExpr ident) lop
      (Expression.assignmentExpr (AssignmentExpression.mk Span.default
        AssignmentOperator.Assign
        (AssignmentTarget.simpleAssignmentTarget
          (SimpleAssignmentTarget.assignmentTargetIdentifier ident)) c)),
     st) :=
  transform_ident_eq st aspan aop lop hop ident c

/-- Witness for C1 at the concrete input `a &&= c`. -/
theorem transform_identifier_target_witness :
    transform_expression { vars := [], uid := 0 }
      (Expression.assignmentExpr (AssignmentExpression.mk { start := 0, stop := 9 }
        AssignmentOperator.LogicalAnd
        (AssignmentTarget.simpleAssignmentTarget
          (SimpleAssignmentTarget.assignmentTargetIdentifier
            { span := { start := 1, stop := 2 }, name := "a" }))
        (Expression.otherExpr { start := 5, stop := 6 } 42))) =
    (Expression.logicalExpr Span.default
      (Expression.identifierReferenceExpr { span := { start := 1, stop := 2 }, name := "a" })
      LogicalOperator.And
      (Expression.assignmentExpr (AssignmentExpression.mk Span.default
        AssignmentOperator.Assign
        (AssignmentTarget.simpleAssignmentTarget
          (SimpleAssignmentTarget.assignmentTargetIdentifier
            { span := { start := 1, stop := 2 }, name := "a" }))
        (Expression.otherExpr { start := 5, stop := 6 } 42))),
     { vars := [], uid := 0 }) :=
  transform_identifier_target { vars := [], uid := 0 } { start := 0, stop := 9 }
    AssignmentOperator.LogicalAnd LogicalOperator.And (Or.inl ⟨rfl, rfl⟩)
    { span := { start := 1, stop := 2 }, name := "a" }
    (Expression.otherExpr { start := 5, stop := 6 } 42)

/-- Claim C2: for every input expression that is not an assignment
expression, or whose operator is not one of the three logical compound
operators, or whose target is a destructuring pattern, a private-field member
expression, or a TypeScript-annotated simple target, transform_expression
leaves the node unchanged. -/
theorem transform_ineligible_node_unchanged (st : TransformState)
    (e : Expression) (h : ineligibleShape e = true) :
    (transform_expression st e).fst = e := by
  rw [transform_of_ineligible st e h]

/-- Witness for C2 at the concrete input `a = c` (plain assignment
operator). -/
theorem transform_ineligible_node_unchanged_witness :
    (transform_expression { vars := [], uid := 0 }
      (Expression.assignmentExpr (AssignmentExpression.mk { start := 0, stop := 5 }
        AssignmentOperator.Assign
        (AssignmentTarget.simpleAssignmentTarget
          (SimpleAssignmentTarget.assignmentTargetIdentifier
            { span := { start := 0, stop := 1 }, name := "a" }))
        (Expression.otherExpr { start := 4, stop := 5 } 3)))).fst =
    Expression.assignmentExpr (AssignmentExpression.mk { start := 0, stop := 5 }
      AssignmentOperator.Assign
      (AssignmentTarget.simpleAssignmentTarget
        (SimpleAssignmentTarget.assignmentTargetIdentifier
          { span := { start := 0, stop := 1 }, name := "a" }))
      (Expression.otherExpr { start := 4, stop := 5 } 3)) :=
  transform_ineligible_node_unchanged { vars := [], uid := 0 } _ rfl

/-- Claim C9: whenever transform_expression takes one of its no-op early
returns (non-assignment expression, non-logical operator, pattern target,
private-field target, TypeScript-annotated target), the scratch-variable
accumulator is also left unchanged. -/
theorem transform_ineligible_vars_unchanged (st : TransformState)
    (e : Expression) (h : ineligibleShape e = true) :
    (transform_expression st e).snd = st := by
  rw [transform_of_ineligible st e h]

/-- Witness for C9 at the concrete input `#p in obj` style private-field
target `obj.#f &&= c`. -/
theorem transform_ineligible_vars_unchanged_witness :
    (transform_expression { vars := [{ name := "x" }], uid := 4 }
      (Expression.assignmentExpr (AssignmentExpression.mk { start := 0, stop := 12 }
        AssignmentOperator.LogicalAnd
        (AssignmentTarget.simpleAssignmentTarget
          (SimpleAssignmentTarget.memberAssignmentTarget
            (MemberExpression.privateFieldExpression { start := 0, stop := 6 }
              (Expression.otherExpr { start := 0, stop := 3 } 9) "f")))
        (Expression.otherExpr { start := 10, stop := 12 } 1)))).snd =
    { vars := [{ name := "x" }], uid := 4 } :=
  transform_ineligible_vars_unchanged { vars := [{ name := "x" }], uid := 4 } _ rfl

/-- Claim C3: for a static-member target, if the object is classified
safe-to-duplicate (memoization returns no temp) the output is
`a.b <op> (a.b = c)` with no scratch declaration appended; if the object
requires memoization, exactly one scratch declaration is appended and the
output is `(_t = obj).b <op> (_t.b = c)`, so the object expression occurs
exactly once in the rewritten tree. -/
theorem transform_static_member_target (st : TransformState) (aspan : Span)
    (aop : AssignmentOperator) (lop : LogicalOperator)
    (hop : specLogicalOpMapping aop lop)
    (mspan : Span) (obj : Expression) (prop : String) (c : Expression) :
    ((maybe_generate_memoised st obj).fst = none →
      transform_expression st
        (Expression.assignmentExpr (AssignmentExpression.mk aspan aop
          (AssignmentTarget.simpleAssignmentTarget
            (SimpleAssignmentTarget.memberAssignmentTarget
              (MemberExpression.staticMemberExpression mspan obj prop))) c)) =
      (Expression.logicalExpr Span.default
        (Expression.memberExpr (MemberExpression.staticMemberExpression mspan obj prop)) lop
        (Expression.assignmentExpr (AssignmentExpression.mk Span.default
          AssignmentOperator.Assign
          (AssignmentTarget.simpleAssignmentTarget
            (SimpleAssignmentTarget.memberAssignmentTarget
              (MemberExpression.staticMemberExpression mspan obj prop))) c)),
       st)) ∧
    (∀ ident, (maybe_generate_memoised st obj).fst = some ident →
      transform_expression st
        (Expression.assignmentExpr (AssignmentExpression.mk aspan aop
          (AssignmentTarget.simpleAssignmentTarget
            (SimpleAssignmentTarget.memberAssignmentTarget
              (MemberExpression.staticMemberExpression mspan obj prop))) c)) =
      (Expression.logicalExpr Span.default
        (Expression.memberExpr (MemberExpression.staticMemberExpression mspan
          (Expression.assignmentExpr (AssignmentExpression.mk Span.default
            AssignmentOperator.Assign
            (AssignmentTarget.simpleAssignmentTarget
              (SimpleAssignmentTarget.assignmentTargetIdentifier ident)) obj)) prop)) lop
        (Expression.assignmentExpr (AssignmentExpression.mk Span.default
          AssignmentOperator.Assign
          (AssignmentTarget.simpleAssignmentTarget
            (SimpleAssignmentTarget.memberAssignmentTarget
              (MemberExpression.staticMemberExpression mspan
                (Expression.identifierReferenceExpr ident) prop))) c)),
       { vars := st.vars ++ [{ name := ident.name }], uid := st.uid + 1 })) ∧
    (∀ s t, obj = Expression.otherExpr s t → countMarkerExpr s t c = 0 →
      countMarkerExpr s t
        (transform_expression st
          (Expression.assignmentExpr (AssignmentExpression.mk aspan aop
            (AssignmentTarget.simpleAssignmentTarget
              (SimpleAssignmentTarget.memberAssignmentTarget
                (MemberExpression.staticMemberExpression mspan obj prop))) c))).fst = 1) := by
  refine ⟨?_, ?_, ?_⟩
  · intro h
    have hobj : memoNeeded obj = false := (maybe_generate_memoised_fst_none st obj).mp h
    exact transform_static_trivial_eq st aspan aop lop hop mspan obj prop c hobj
  · intro ident h
    cases hobj : memoNeeded obj with
    | false => simp [maybe_generate_memoised, hobj] at h
    | true =>
      simp [maybe_generate_memoised, hobj] at h
      subst h
      exact transform_static_memo_eq st aspan aop lop hop mspan obj prop c hobj
  · intro s t hmark hc
    subst hmark
    rw [transform_static_memo_eq st aspan aop lop hop mspan
      (Expression.otherExpr s t) prop c rfl]
    simp [countMarkerExpr, countMarkerMember, countMarkerAssign, countMarkerTarget,
      countMarkerSimple, hc]

/-- Witness for C3 at the concrete input `f().b ||= c` (memoised object). -/
theorem transform_static_member_target_witness :
    transform_expression { vars := [], uid := 0 }
      (Expression.assignmentExpr (AssignmentExpression.mk { start := 0, stop := 14 }
        AssignmentOperator.LogicalOr
        (AssignmentTarget.simpleAssignmentTarget
          (SimpleAssignmentTarget.memberAssignmentTarget
            (MemberExpression.staticMemberExpression { start := 0, stop := 5 }
              (Expression.otherExpr { start := 0, stop := 3 } 7) "b")))
        (Expression.otherExpr { start := 13, stop := 14 } 5))) =
    (Expression.logicalExpr Span.default
      (Expression.memberExpr (MemberExpression.staticMemberExpression { start := 0, stop := 5 }
        (Expression.assignmentExpr (AssignmentExpression.mk Span.default
          AssignmentOperator.Assign
          (AssignmentTarget.simpleAssignmentTarget
            (SimpleAssignmentTarget.assignmentTargetIdentifier
              { span := Span.default, name := "_t0" }))
          (Expression.otherExpr { start := 0, stop := 3 } 7))) "b")) LogicalOperator.Or
      (Expression.assignmentExpr (AssignmentExpression.mk Span.default
        AssignmentOperator.Assign
        (AssignmentTarget.simpleAssignmentTarget
          (SimpleAssignmentTarget.memberAssignmentTarget
            (MemberExpression.staticMemberExpression { start := 0, stop := 5 }
              (Expression.identifierReferenceExpr { span := Span.default, name := "_t0" }) "b")))
        (Expression.otherExpr { start := 13, stop := 14 } 5))),
     { vars := [{ name := "_t0" }], uid := 1 }) :=
  (transform_static_member_target { vars := [], uid := 0 } { start := 0, stop := 14 }
    AssignmentOperator.LogicalOr LogicalOperator.Or (Or.inr (Or.inl ⟨rfl, rfl⟩))
    { start := 0, stop := 5 } (Expression.otherExpr { start := 0, stop := 3 } 7) "b"
    (Expression.otherExpr { start := 13, stop := 14 } 5)).2.1
    { span := Span.default, name := "_t0" } rfl

/-- Claim C4: for a computed-member target `obj[key]` the object and the key
are classified for memoization independently, and all four (object, key)
triviality combinations yield the template output — a memoized subexpression
becomes `tmp = original` at its first occurrence and bare `tmp` at its second,
a non-memoized subexpression is duplicated verbatim; when both are memoized
exactly two scratch declarations are appended and the output is
`(_t = obj)[_k = key] <op> (_t[_k] = c)`. -/
theorem transform_computed_member_target (st : TransformState) (aspan : Span)
    (aop : AssignmentOperator) (lop : LogicalOperator)
    (hop : specLogicalOpMapping aop lop)
    (mspan : Span) (obj key : Expression) (c : Expression) :
    (memoNeeded obj = false → memoNeeded key = false →
      transform_expression st
        (Expression.assignmentExpr (AssignmentExpression.mk aspan aop
          (AssignmentTarget.simpleAssignmentTarget
            (SimpleAssignmentTarget.memberAssignmentTarget
              (MemberExpression.computedMemberExpression mspan obj key))) c)) =
      (Expression.logicalExpr Span.default
        (Expression.memberExpr (MemberExpression.computedMemberExpression mspan obj key)) lop
        (Expression.assignmentExpr (AssignmentExpression.mk Span.default
          AssignmentOperator.Assign
          (AssignmentTarget.simpleAssignmentTarget
            (SimpleAssignmentTarget.memberAssignmentTarget
              (MemberExpression.computedMemberExpression mspan obj key))) c)),
       st)) ∧
    (memoNeeded obj = true → memoNeeded key = false →
      transform_expression st
        (Expression.assignmentExpr (AssignmentExpression.mk aspan aop
          (AssignmentTarget.simpleAssignmentTarget
            (SimpleAssignmentTarget.memberAssignmentTarget
              (MemberExpression.computedMemberExpression mspan obj key))) c)) =
      (Expression.logicalExpr Span.default
        (Expression.memberExpr (MemberExpression.computedMemberExpression mspan
          (Expression.assignmentExpr (AssignmentExpression.mk Span.default
            AssignmentOperator.Assign
            (AssignmentTarget.simpleAssignmentTarget
              (SimpleAssignmentTarget.assignmentTargetIdentifier
                { span := Span.default, name := mintName st.uid })) obj)) key)) lop
        (Expression.assignmentExpr (AssignmentExpression.mk Span.default
          AssignmentOperator.Assign
          (AssignmentTarget.simpleAssignmentTarget
            (SimpleAssignmentTarget.memberAssignmentTarget
              (MemberExpression.computedMemberExpression mspan
                (Expression.identifierReferenceExpr
                  { span := Span.default, name := mintName st.uid }) key))) c)),
       { vars := st.vars ++ [{ name := mintName st.uid }], uid := st.uid + 1 })) ∧
    (memoNeeded obj = false → memoNeeded key = true →
      transform_expression st
        (Expression.assignmentExpr (AssignmentExpression.mk aspan aop
          (AssignmentTarget.simpleAssignmentTarget
            (SimpleAssignmentTarget.memberAssignmentTarget
              (MemberExpression.computedMemberExpression mspan obj key))) c)) =
      (Expression.logicalExpr Span.default
        (Expression.memberExpr (MemberExpression.computedMemberExpression mspan obj
          (Expression.assignmentExpr (AssignmentExpression.mk Span.default
            AssignmentOperator.Assign
            (AssignmentTarget.simpleAssignmentTarget
              (SimpleAssignmentTarget.assignmentTargetIdentifier
                { span := Span.default, name := mintName st.uid })) key)))) lop
        (Expression.assignmentExpr (AssignmentExpression.mk Span.default
          AssignmentOperator.Assign
          (AssignmentTarget.simpleAssignmentTarget
            (SimpleAssignmentTarget.memberAssignmentTarget
              (MemberExpression.computedMemberExpression mspan obj
                (Expression.identifierReferenceExpr
                  { span := Span.default, name := mintName st.uid })))) c)),
       { vars := st.vars ++ [{ name := mintName st.uid }], uid := st.uid + 1 })) ∧
    (memoNeeded obj = true → memoNeeded key = true →
      transform_expression st
        (Expression.assignmentExpr (AssignmentExpression.mk aspan aop
          (AssignmentTarget.simpleAssignmentTarget
            (SimpleAssignmentTarget.memberAssignmentTarget
              (MemberExpression.computedMemberExpression mspan obj key))) c)) =
      (Expression.logicalExpr Span.default
        (Expression.memberExpr (MemberExpression.computedMemberExpression mspan
          (Expression.assignmentExpr (AssignmentExpression.mk Span.default
            AssignmentOperator.Assign
            (AssignmentTarget.simpleAssignmentTarget
              (SimpleAssignmentTarget.assignmentTargetIdentifier
                { span := Span.default, name := mintName st.uid })) obj))
          (Expression.assignmentExpr (AssignmentExpression.mk Span.default
            AssignmentOperator.Assign
            (AssignmentTarget.simpleAssignmentTarget
              (SimpleAssignmentTarget.assignmentTargetIdentifier
                { span := Span.default, name := mintName (st.uid + 1) })) key)))) lop
        (Expression.assignmentExpr (AssignmentExpression.mk Span.default
          AssignmentOperator.Assign
          (AssignmentTarget.simpleAssignmentTarget
            (SimpleAssignmentTarget.memberAssignmentTarget
              (MemberExpression.computedMemberExpression mspan
                (Expression.identifierReferenceExpr
                  { span := Span.default, name := mintName st.uid })
                (Expression.identifierReferenceExpr
                  { span := Span.default, name := mintName (st.uid + 1) })))) c)),
       { vars := st.vars ++ [{ name := mintName st.uid }] ++
           [{ name := mintName (st.uid + 1) }],
         uid := st.uid + 1 + 1 })) := by
  refine ⟨?_, ?_, ?_, ?_⟩
  · intro hobj hkey
    exact transform_computed_both_trivial_eq st aspan aop lop hop mspan obj key c hobj hkey
  · intro hobj hkey
    exact transform_computed_obj_memo_eq st aspan aop lop hop mspan obj key c hobj hkey
  · intro hobj hkey
    exact transform_computed_key_memo_eq st aspan aop lop hop mspan obj key c hobj hkey
  · intro hobj hkey
    exact transform_computed_both_memo_eq st aspan aop lop hop mspan obj key c hobj hkey

/-- Witness for C4 at the concrete input `f()[g()] ??= c` (object and key both
memoised, two scratch declarations). -/
theorem transform_computed_member_target_witness :
    transform_expression { vars := [], uid := 0 }
      (Expression.assignmentExpr (AssignmentExpression.mk { start := 0, stop := 16 }
        AssignmentOperator.LogicalNullish
        (AssignmentTarget.simpleAssignmentTarget
          (SimpleAssignmentTarget.memberAssignmentTarget
            (MemberExpression.computedMemberExpression { start := 0, stop := 8 }
              (Expression.otherExpr { start := 0, stop := 3 } 7)
              (Expression.otherExpr { start := 4, stop := 7 } 8))))
        (Expression.otherExpr { start := 15, stop := 16 } 5))) =
    (Expression.logicalExpr Span.default
      (Expression.memberExpr (MemberExpression.computedMemberExpression { start := 0, stop := 8 }
        (Expression.assignmentExpr (AssignmentExpression.mk Span.default
          AssignmentOperator.Assign
          (AssignmentTarget.simpleAssignmentTarget
            (SimpleAssignmentTarget.assignmentTargetIdentifier
              { span := Span.default, name := "_t0" }))
          (Expression.otherExpr { start := 0, stop := 3 } 7)))
        (Expression.assignmentExpr (AssignmentExpression.mk Span.default
          AssignmentOperator.Assign
          (AssignmentTarget.simpleAssignmentTarget
            (SimpleAssignmentTarget.assignmentTargetIdentifier
              { span := Span.default, name := "_t1" }))
          (Expression.otherExpr { start := 4, stop := 7 } 8))))) LogicalOperator.Coalesce
      (Expression.assignmentExpr (AssignmentExpression.mk Span.default
        AssignmentOperator.Assign
        (AssignmentTarget.simpleAssignmentTarget
          (SimpleAssignmentTarget.memberAssignmentTarget
            (MemberExpression.computedMemberExpression { start := 0, stop := 8 }
              (Expression.identifierReferenceExpr { span := Span.default, name := "_t0" })
              (Expression.identifierReferenceExpr { span := Span.default, name := "_t1" }))))
        (Expression.otherExpr { start := 15, stop := 16 } 5))),
     { vars := [{ name := "_t0" }, { name := "_t1" }], uid := 2 }) :=
  (transform_computed_member_target { vars := [], uid := 0 } { start := 0, stop := 16 }
    AssignmentOperator.LogicalNullish LogicalOperator.Coalesce
    (Or.inr (Or.inr ⟨rfl, rfl⟩)) { start := 0, stop := 8 }
    (Expression.otherExpr { start := 0, stop := 3 } 7)
    (Expression.otherExpr { start := 4, stop := 7 } 8)
    (Expression.otherExpr { start := 15, stop := 16 } 5)).2.2.2 rfl rfl

/-- Claim C5: for every rewritten assignment expression, the original
right-hand-side subtree is relocated into the right operand of the nested
plain assignment of the output and, when it is a marker subtree occurring
nowhere in the target, it occurs exactly once in the rewritten tree. -/
theorem transform_rhs_relocated_once (st : TransformState) (aspan : Span)
    (aop : AssignmentOperator) (lop : LogicalOperator)
    (hop : specLogicalOpMapping aop lop)
    (aleft : AssignmentTarget) (helig : badTarget aleft = false)
    (s : Span) (t : Nat) (hfresh : countMarkerTarget s t aleft = 0) :
    ∃ l tgt st1,
      transform_expression st
        (Expression.assignmentExpr (AssignmentExpression.mk aspan aop aleft
          (Expression.otherExpr s t))) =
      (Expression.logicalExpr Span.default l lop
        (Expression.assignmentExpr (AssignmentExpression.mk Span.default
          AssignmentOperator.Assign (AssignmentTarget.simpleAssignmentTarget tgt)
          (Expression.otherExpr s t))), st1) ∧
      countMarkerExpr s t
        (Expression.logicalExpr Span.default l lop
          (Expression.assignmentExpr (AssignmentExpression.mk Span.default
            AssignmentOperator.Assign (AssignmentTarget.simpleAssignmentTarget tgt)
            (Expression.otherExpr s t)))) = 1 := by
  cases aleft with
  | assignmentTargetPattern tag => simp [badTarget] at helig
  | simpleAssignmentTarget tg =>
    cases tg with
    | tsTarget tag => simp [badTarget] at helig
    | assignmentTargetIdentifier ident =>
      refine ⟨Expression.identifierReferenceExpr ident,
        SimpleAssignmentTarget.assignmentTargetIdentifier ident, st,
        transform_ident_eq st aspan aop lop hop ident (Expression.otherExpr s t), ?_⟩
      simp [countMarkerExpr, countMarkerAssign, countMarkerTarget, countMarkerSimple]
    | memberAssignmentTarget m =>
      cases m with
      | privateFieldExpression sp obj f => simp [badTarget] at helig
      | staticMemberExpression mspan obj prop =>
        have hcount : countMarkerExpr s t obj = 0 := by
          simpa [countMarkerTarget, countMarkerSimple, countMarkerMember] using hfresh
        cases hobj : memoNeeded obj with
        | false =>
          refine ⟨_, _, st,
            transform_static_trivial_eq st aspan aop lop hop mspan obj prop
              (Expression.otherExpr s t) hobj, ?_⟩
          simp [countMarkerExpr, countMarkerMember, countMarkerAssign,
            countMarkerTarget, countMarkerSimple, hcount]
        | true =>
          refine ⟨_, _, _,
            transform_static_memo_eq st aspan aop lop hop mspan obj prop
              (Expression.otherExpr s t) hobj, ?_⟩
          simp [countMarkerExpr, countMarkerMember, countMarkerAssign,
            countMarkerTarget, countMarkerSimple, hcount]
      | computedMemberExpression mspan obj key =>
        have hcount : countMarkerExpr s t obj = 0 ∧ countMarkerExpr s t key = 0 := by
          have h2 := hfresh
          simp [countMarkerTarget, countMarkerSimple, countMarkerMember] at h2
          omega
        cases hobj : memoNeeded obj with
        | false =>
          cases hkey : memoNeeded key with
          | false =>
            refine ⟨_, _, st,
              transform_computed_both_trivial_eq st aspan aop lop hop mspan obj key
                (Expression.otherExpr s t) hobj hkey, ?_⟩
            simp [countMarkerExpr, countMarkerMember, countMarkerAssign,
              countMarkerTarget, countMarkerSimple, hcount.1, hcount.2]
          | true =>
            refine ⟨_, _, _,
              transform_computed_key_memo_eq st aspan aop lop hop mspan obj key
                (Expression.otherExpr s t) hobj hkey, ?_⟩
            simp [countMarkerExpr, countMarkerMember, countMarkerAssign,
              countMarkerTarget, countMarkerSimple, hcount.1, hcount.2]
        | true =>
          cases hkey : memoNeeded key with
          | false =>
            refine ⟨_, _, _,
              transform_computed_obj_memo_eq st aspan aop lop hop mspan obj key
                (Expression.otherExpr s t) hobj hkey, ?_⟩
            simp [countMarkerExpr, countMarkerMember, countMarkerAssign,
              countMarkerTarget, countMarkerSimple, hcount.1, hcount.2]
          | true =>
            refine ⟨_, _, _,
              transform_computed_both_memo_eq st aspan aop lop hop mspan obj key
                (Expression.otherExpr s t) hobj hkey, ?_⟩
            simp [countMarkerExpr, countMarkerMember, countMarkerAssign,
              countMarkerTarget, countMarkerSimple, hcount.1, hcount.2]

/-- Witness for C5 at the concrete input `a.b &&= c` with the right-hand side
a marker node. -/
theorem transform_rhs_relocated_once_witness :
    ∃ l tgt st1,
      transform_expression { vars := [], uid := 0 }
        (Expression.assignmentExpr (AssignmentExpression.mk { start := 0, stop := 10 }
          AssignmentOperator.LogicalAnd
          (AssignmentTarget.simpleAssignmentTarget
            (SimpleAssignmentTarget.memberAssignmentTarget
              (MemberExpression.staticMemberExpression { start := 0, stop := 3 }
                (Expression.identifierReferenceExpr { span := { start := 0, stop := 1 }, name := "a" })
                "b")))
          (Expression.otherExpr { start := 9, stop := 10 } 99))) =
      (Expression.logicalExpr Span.default l LogicalOperator.And
        (Expression.assignmentExpr (AssignmentExpression.mk Span.default
          AssignmentOperator.Assign (AssignmentTarget.simpleAssignmentTarget tgt)
          (Expression.otherExpr { start := 9, stop := 10 } 99))), st1) ∧
      countMarkerExpr { start := 9, stop := 10 } 99
        (Expression.logicalExpr Span.default l LogicalOperator.And
          (Expression.assignmentExpr (AssignmentExpression.mk Span.default
            AssignmentOperator.Assign (AssignmentTarget.simpleAssignmentTarget tgt)
            (Expression.otherExpr { start := 9, stop := 10 } 99)))) = 1 :=
  transform_rhs_relocated_once { vars := [], uid := 0 } { start := 0, stop := 10 }
    AssignmentOperator.LogicalAnd LogicalOperator.And (Or.inl ⟨rfl, rfl⟩)
    (AssignmentTarget.simpleAssignmentTarget
      (SimpleAssignmentTarget.memberAssignmentTarget
        (MemberExpression.staticMemberExpression { start := 0, stop := 3 }
          (Expression.identifierReferenceExpr { span := { start := 0, stop := 1 }, name := "a" })
          "b"))) rfl { start := 9, stop := 10 } 99 rfl

theorem decl_effect_core (st : TransformState) (aspan : Span)
    (aop : AssignmentOperator) (lop : LogicalOperator)
    (hop : specLogicalOpMapping aop lop)
    (aleft : AssignmentTarget) (aright : Expression) :
    ∃ ds : List VariableDeclarator,
      (transform_expression st (Expression.assignmentExpr
        (AssignmentExpression.mk aspan aop aleft aright))).snd.vars = st.vars ++ ds ∧
      ds.length = declCount (Expression.assignmentExpr
        (AssignmentExpression.mk aspan aop aleft aright)) := by
  cases aleft with
  | assignmentTargetPattern tag =>
    refine ⟨[], ?_⟩
    rcases hop with ⟨h1, h2⟩ | ⟨h1, h2⟩ | ⟨h1, h2⟩ <;> subst h1 <;>
      simp [transform_expression, mapLogicalOp, computeLeftAndTarget, declCount]
  | simpleAssignmentTarget tg =>
    cases tg with
    | tsTarget tag =>
      refine ⟨[], ?_⟩
      rcases hop with ⟨h1, h2⟩ | ⟨h1, h2⟩ | ⟨h1, h2⟩ <;> subst h1 <;>
        simp [transform_expression, mapLogicalOp, computeLeftAndTarget, declCount]
    | assignmentTargetIdentifier ident =>
      refine ⟨[], ?_⟩
      rw [transform_ident_eq st aspan aop lop hop ident aright]
      rcases hop with ⟨h1, h2⟩ | ⟨h1, h2⟩ | ⟨h1, h2⟩ <;> subst h1 <;>
        simp [declCount, mapLogicalOp]
    | memberAssignmentTarget m =>
      cases m with
      | privateFieldExpression sp obj f =>
        refine ⟨[], ?_⟩
        rcases hop with ⟨h1, h2⟩ | ⟨h1, h2⟩ | ⟨h1, h2⟩ <;> subst h1 <;>
          simp [transform_expression, mapLogicalOp, computeLeftAndTarget, declCount]
      | staticMemberExpression mspan obj prop =>
        cases hobj : memoNeeded obj with
        | false =>
          refine ⟨[], ?_⟩
          rw [transform_static_trivial_eq st aspan aop lop hop mspan obj prop aright hobj]
          rcases hop with ⟨h1, h2⟩ | ⟨h1, h2⟩ | ⟨h1, h2⟩ <;> subst h1 <;>
            simp [declCount, mapLogicalOp, hobj]
        | true =>
          refine ⟨[{ name := mintName st.uid }], ?_⟩
          rw [transform_static_memo_eq st aspan aop lop hop mspan obj prop aright hobj]
          rcases hop with ⟨h1, h2⟩ | ⟨h1, h2⟩ | ⟨h1, h2⟩ <;> subst h1 <;>
            simp [declCount, mapLogicalOp, hobj]
      | computedMemberExpression mspan obj key =>
        cases hobj : memoNeeded obj with
        | false =>
          cases hkey : memoNeeded key with
          | false =>
            refine ⟨[], ?_⟩
            rw [transform_computed_both_trivial_eq st aspan aop lop hop mspan obj key
              aright hobj hkey]
            rcases hop with ⟨h1, h2⟩ | ⟨h1, h2⟩ | ⟨h1, h2⟩ <;> subst h1 <;>
              simp [declCount, mapLogicalOp, hobj, hkey]
          | true =>
            refine ⟨[{ name := mintName st.uid }], ?_⟩
            rw [transform_computed_key_memo_eq st aspan aop lop hop mspan obj key
              aright hobj hkey]
            rcases hop with ⟨h1, h2⟩ | ⟨h1, h2⟩ | ⟨h1, h2⟩ <;> subst h1 <;>
              simp [declCount, mapLogicalOp, hobj, hkey]
        | true =>
          cases hkey : memoNeeded key with
          | false =>
            refine ⟨[{ name := mintName st.uid }], ?_⟩
            rw [transform_computed_obj_memo_eq st aspan aop lop hop mspan obj key
              aright hobj hkey]
            rcases hop with ⟨h1, h2⟩ | ⟨h1, h2⟩ | ⟨h1, h2⟩ <;> subst h1 <;>
              simp [declCount, mapLogicalOp, hobj, hkey]
          | true =>
            refine ⟨[{ name := mintName st.uid }, { name := mintName (st.uid + 1) }], ?_⟩
            rw [transform_computed_both_memo_eq st aspan aop lop hop mspan obj key
              aright hobj hkey]
            rcases hop with ⟨h1, h2⟩ | ⟨h1, h2⟩ | ⟨h1, h2⟩ <;> subst h1 <;>
              simp [declCount, mapLogicalOp, hobj, hkey]

theorem declCount_le_two (e : Expression) : declCount e ≤ 2 := by
  cases e with
  | assignmentExpr a =>
    cases a with
    | mk aspan aop aleft aright =>
      cases hm : mapLogicalOp aop with
      | none => simp [declCount, hm]
      | some lop =>
        cases aleft with
        | assignmentTargetPattern tag => simp [declCount, hm]
        | simpleAssignmentTarget tg =>
          cases tg with
          | tsTarget tag => simp [declCount, hm]
          | assignmentTargetIdentifier ident => simp [declCount, hm]
          | memberAssignmentTarget m =>
            cases m with
            | privateFieldExpression sp obj f => simp [declCount, hm]
            | staticMemberExpression sp obj p =>
              cases hobj : memoNeeded obj <;> simp [declCount, hm, hobj]
            | computedMemberExpression sp obj k =>
              cases hobj : memoNeeded obj <;> cases hkey : memoNeeded k <;>
                simp [declCount, hm, hobj, hkey]
  | identifierReferenceExpr ident => simp [declCount]
  | memberExpr m => simp [declCount]
  | logicalExpr sp l op r => simp [declCount]
  | otherExpr sp tag => simp [declCount]

/-- Claim C6: transform_expression is total over the embedded input space and
appends exactly zero, one, or two scratch declarations to the accumulator:
one for a memoised member object, one more only for a memoised computed key,
and none otherwise; the previous accumulator contents are preserved. -/
theorem transform_decl_effect (st : TransformState) (e : Expression) :
    ∃ ds : List VariableDeclarator,
      (transform_expression st e).snd.vars = st.vars ++ ds ∧
      ds.length = declCount e ∧ declCount e ≤ 2 := by
  have hle := declCount_le_two e
  cases e with
  | assignmentExpr a =>
    cases a with
    | mk aspan aop aleft aright =>
      cases aop with
      | Assign => exact ⟨[], by simp [transform_expression, mapLogicalOp, declCount]⟩
      | Other => exact ⟨[], by simp [transform_expression, mapLogicalOp, declCount]⟩
      | LogicalAnd =>
        obtain ⟨ds, h1, h2⟩ := decl_effect_core st aspan AssignmentOperator.LogicalAnd
          LogicalOperator.And (Or.inl ⟨rfl, rfl⟩) aleft aright
        exact ⟨ds, h1, h2, hle⟩
      | LogicalOr =>
        obtain ⟨ds, h1, h2⟩ := decl_effect_core st aspan AssignmentOperator.LogicalOr
          LogicalOperator.Or (Or.inr (Or.inl ⟨rfl, rfl⟩)) aleft aright
        exact ⟨ds, h1, h2, hle⟩
      | LogicalNullish =>
        obtain ⟨ds, h1, h2⟩ := decl_effect_core st aspan AssignmentOperator.LogicalNullish
          LogicalOperator.Coalesce (Or.inr (Or.inr ⟨rfl, rfl⟩)) aleft aright
        exact ⟨ds, h1, h2, hle⟩
  | identifierReferenceExpr ident =>
    exact ⟨[], by simp [transform_expression, declCount]⟩
  | memberExpr m => exact ⟨[], by simp [transform_expression, declCount]⟩
  | logicalExpr sp l op r => exact ⟨[], by simp [transform_expression, declCount]⟩
  | otherExpr sp tag => exact ⟨[], by simp [transform_expression, declCount]⟩

theorem transform_shape (st : TransformState) (e : Expression) :
    transform_expression st e = (e, st) ∨
    ∃ sp l op r, (transform_expression st e).fst = Expression.logicalExpr sp l op r := by
  cases e with
  | assignmentExpr a =>
    cases a with
    | mk aspan aop aleft aright =>
      cases aop with
      | Assign => exact Or.inl rfl
      | Other => exact Or.inl rfl
      | LogicalAnd =>
        cases hc : computeLeftAndTarget st aleft with
        | none => exact Or.inl (by simp [transform_expression, mapLogicalOp, hc])
        | some triple =>
          obtain ⟨l, tgt, st1⟩ := triple
          exact Or.inr ⟨Span.default, l, LogicalOperator.And,
            Expression.assignmentExpr (AssignmentExpression.mk Span.default
              AssignmentOperator.Assign
              (AssignmentTarget.simpleAssignmentTarget tgt) aright),
            by simp [transform_expression, mapLogicalOp, hc]⟩
      | LogicalOr =>
        cases hc : computeLeftAndTarget st aleft with
        | none => exact Or.inl (by simp [transform_expression, mapLogicalOp, hc])
        | some triple =>
          obtain ⟨l, tgt, st1⟩ := triple
          exact Or.inr ⟨Span.default, l, LogicalOperator.Or,
            Expression.assignmentExpr (AssignmentExpression.mk Span.default
              AssignmentOperator.Assign
              (AssignmentTarget.simpleAssignmentTarget tgt) aright),
            by simp [transform_expression, mapLogicalOp, hc]⟩
      | LogicalNullish =>
        cases hc : computeLeftAndTarget st aleft with
        | none => exact Or.inl (by simp [transform_expression, mapLogicalOp, hc])
        | some triple =>
          obtain ⟨l, tgt, st1⟩ := triple
          exact Or.inr ⟨Span.default, l, LogicalOperator.Coalesce,
            Expression.assignmentExpr (AssignmentExpression.mk Span.default
              AssignmentOperator.Assign
              (AssignmentTarget.simpleAssignmentTarget tgt) aright),
            by simp [transform_expression, mapLogicalOp, hc]⟩
  | identifierReferenceExpr ident => exact Or.inl rfl
  | memberExpr m => exact Or.inl rfl
  | logicalExpr sp l op r => exact Or.inl rfl
  | otherExpr sp tag => exact Or.inl rfl

/-- Claim C7: the pass is idempotent — applying transform_expression to the
node and accumulator it just produced changes neither: a rewritten node is a
plain logical expression, which a second application leaves unchanged with no
further declarations appended. -/
theorem transform_idempotent (st : TransformState) (e : Expression) :
    transform_expression (transform_expression st e).snd
        (transform_expression st e).fst =
      ((transform_expression st e).fst, (transform_expression st e).snd) := by
  rcases transform_shape st e with h | ⟨sp, l, op, r, h⟩
  · rw [h]
    exact h
  · rw [h]
    rfl

/-- Claim C8: LogicalAssignmentOperators::new instantiates the pass exactly
when the configured target version is strictly below ES2021 or the
logical_assignment_operators force flag is set; otherwise it returns none. -/
theorem new_instantiates_iff (options : TransformOptions) :
    (LogicalAssignmentOperators.new options).isSome = true ↔
      (TransformTarget.lt options.target TransformTarget.ES2021 = true ∨
       options.logical_assignment_operators = true) := by
  cases h1 : TransformTarget.lt options.target TransformTarget.ES2021 <;>
    cases h2 : options.logical_assignment_operators <;>
      simp [LogicalAssignmentOperators.new, h1, h2]

/-- Claim C10: every node synthesized by the rewrite — the outer logical
expression, the nested plain assignment, and the memoization assignments
`_t = obj` / `_k = key` (together with their minted temp identifiers) —
carries the default empty span, while subtrees copied or moved from the input
(the identifier, the member expression node with its span, the object, the
key, the right-hand side) keep their original spans; stated as the full
output characterization of every eligible target shape, including both
computed-member single-memoization cases. -/
theorem transform_synthesized_spans (st : TransformState) (aspan : Span)
    (aop : AssignmentOperator) (lop : LogicalOperator)
    (hop : specLogicalOpMapping aop lop) :
    (∀ ident c,
      transform_expression st
        (Expression.assignmentExpr (AssignmentExpression.mk aspan aop
          (AssignmentTarget.simpleAssignmentTarget
            (SimpleAssignmentTarget.assignmentTargetIdentifier ident)) c)) =
      (Expression.logicalExpr Span.default
        (Expression.identifierReferenceExpr ident) lop
        (Expression.assignmentExpr (AssignmentExpression.mk Span.default
          AssignmentOperator.Assign
          (AssignmentTarget.simpleAssignmentTarget
            (SimpleAssignmentTarget.assignmentTargetIdentifier ident)) c)),
       st)) ∧
    (∀ mspan obj prop c, memoNeeded obj = false →
      transform_expression st
        (Expression.assignmentExpr (AssignmentExpression.mk aspan aop
          (AssignmentTarget.simpleAssignmentTarget
            (SimpleAssignmentTarget.memberAssignmentTarget
              (MemberExpression.staticMemberExpression mspan obj prop))) c)) =
      (Expression.logicalExpr Span.default
        (Expression.memberExpr (MemberExpression.staticMemberExpression mspan obj prop)) lop
        (Expression.assignmentExpr (AssignmentExpression.mk Span.default
          AssignmentOperator.Assign
          (AssignmentTarget.simpleAssignmentTarget
            (SimpleAssignmentTarget.memberAssignmentTarget
              (MemberExpression.staticMemberExpression mspan obj prop))) c)),
       st)) ∧
    (∀ mspan obj prop c, memoNeeded obj = true →
      transform_expression st
        (Expression.assignmentExpr (AssignmentExpression.mk aspan aop
          (AssignmentTarget.simpleAssignmentTarget
            (SimpleAssignmentTarget.memberAssignmentTarget
              (MemberExpression.staticMemberExpression mspan obj prop))) c)) =
      (Expression.logicalExpr Span.default
        (Expression.memberExpr (MemberExpression.staticMemberExpression mspan
          (Expression.assignmentExpr (AssignmentExpression.mk Span.default
            AssignmentOperator.Assign
            (AssignmentTarget.simpleAssignmentTarget
              (SimpleAssignmentTarget.assignmentTargetIdentifier
                { span := Span.default, name := mintName st.uid })) obj)) prop)) lop
        (Expression.assignmentExpr (AssignmentExpression.mk Span.default
          AssignmentOperator.Assign
          (AssignmentTarget.simpleAssignmentTarget
            (SimpleAssignmentTarget.memberAssignmentTarget
              (MemberExpression.staticMemberExpression mspan
                (Expression.identifierReferenceExpr
                  { span := Span.default, name := mintName st.uid }) prop))) c)),
       { vars := st.vars ++ [{ name := mintName st.uid }], uid := st.uid + 1 })) ∧
    (∀ mspan obj key c, memoNeeded obj = false → memoNeeded key = false →
      transform_expression st
        (Expression.assignmentExpr (AssignmentExpression.mk aspan aop
          (AssignmentTarget.simpleAssignmentTarget
            (SimpleAssignmentTarget.memberAssignmentTarget
              (MemberExpression.computedMemberExpression mspan obj key))) c)) =
      (Expression.logicalExpr Span.default
        (Expression.memberExpr (MemberExpression.computedMemberExpression mspan obj key)) lop
        (Expression.assignmentExpr (AssignmentExpression.mk Span.default
          AssignmentOperator.Assign
          (AssignmentTarget.simpleAssignmentTarget
            (SimpleAssignmentTarget.memberAssignmentTarget
              (MemberExpression.computedMemberExpression mspan obj key))) c)),
       st)) ∧
    (∀ mspan obj key c, memoNeeded obj = true → memoNeeded key = false →
      transform_expression st
        (Expression.assignmentExpr (AssignmentExpression.mk aspan aop
          (AssignmentTarget.simpleAssignmentTarget
            (SimpleAssignmentTarget.memberAssignmentTarget
              (MemberExpression.computedMemberExpression mspan obj key))) c)) =
      (Expression.logicalExpr Span.default
        (Expression.memberExpr (MemberExpression.computedMemberExpression mspan
          (Expression.assignmentExpr (AssignmentExpression.mk Span.default
            AssignmentOperator.Assign
            (AssignmentTarget.simpleAssignmentTarget
              (SimpleAssignmentTarget.assignmentTargetIdentifier
                { span := Span.default, name := mintName st.uid })) obj)) key)) lop
        (Expression.assignmentExpr (AssignmentExpression.mk Span.default
          AssignmentOperator.Assign
          (AssignmentTarget.simpleAssignmentTarget
            (SimpleAssignmentTarget.memberAssignmentTarget
              (MemberExpression.computedMemberExpression mspan
                (Expression.identifierReferenceExpr
                  { span := Span.default, name := mintName st.uid }) key))) c)),
       { vars := st.vars ++ [{ name := mintName st.uid }], uid := st.uid + 1 })) ∧
    (∀ mspan obj key c, memoNeeded obj = false → memoNeeded key = true →
      transform_expression st
        (Expression.assignmentExpr (AssignmentExpression.mk aspan aop
          (AssignmentTarget.simpleAssignmentTarget
            (SimpleAssignmentTarget.memberAssignmentTarget
              (MemberExpression.computedMemberExpression mspan obj key))) c)) =
      (Expression.logicalExpr Span.default
        (Expression.memberExpr (MemberExpression.computedMemberExpression mspan obj
          (Expression.assignmentExpr (AssignmentExpression.mk Span.default
            AssignmentOperator.Assign
            (AssignmentTarget.simpleAssignmentTarget
              (SimpleAssignmentTarget.assignmentTargetIdentifier
                { span := Span.default, name := mintName st.uid })) key)))) lop
        (Expression.assignmentExpr (AssignmentExpression.mk Span.default
          AssignmentOperator.Assign
          (AssignmentTarget.simpleAssignmentTarget
            (SimpleAssignmentTarget.memberAssignmentTarget
              (MemberExpression.computedMemberExpression mspan obj
                (Expression.identifierReferenceExpr
                  { span := Span.default, name := mintName st.uid })))) c)),
       { vars := st.vars ++ [{ name := mintName st.uid }], uid := st.uid + 1 })) ∧
    (∀ mspan obj key c, memoNeeded obj = true → memoNeeded key = true →
      transform_expression st
        (Expression.assignmentExpr (AssignmentExpression.mk aspan aop
          (AssignmentTarget.simpleAssignmentTarget
            (SimpleAssignmentTarget.memberAssignmentTarget
              (MemberExpression.computedMemberExpression mspan obj key))) c)) =
      (Expression.logicalExpr Span.default
        (Expression.memberExpr (MemberExpression.computedMemberExpression mspan
          (Expression.assignmentExpr (AssignmentExpression.mk Span.default
            AssignmentOperator.Assign
            (AssignmentTarget.simpleAssignmentTarget
              (SimpleAssignmentTarget.assignmentTargetIdentifier
                { span := Span.default, name := mintName st.uid })) obj))
          (Expression.assignmentExpr (AssignmentExpression.mk Span.default
            AssignmentOperator.Assign
            (AssignmentTarget.simpleAssignmentTarget
              (SimpleAssignmentTarget.assignmentTargetIdentifier
                { span := Span.default, name := mintName (st.uid + 1) })) key)))) lop
        (Expression.assignmentExpr (AssignmentExpression.mk Span.default
          AssignmentOperator.Assign
          (AssignmentTarget.simpleAssignmentTarget
            (SimpleAssignmentTarget.memberAssignmentTarget
              (MemberExpression.computedMemberExpression mspan
                (Expression.identifierReferenceExpr
                  { span := Span.default, name := mintName st.uid })
                (Expression.identifierReferenceExpr
                  { span := Span.default, name := mintName (st.uid + 1) })))) c)),
       { vars := st.vars ++ [{ name := mintName st.uid }] ++
           [{ name := mintName (st.uid + 1) }],
         uid := st.uid + 1 + 1 })) := by
  refine ⟨?_, ?_, ?_, ?_, ?_, ?_, ?_⟩
  · intro ident c
    exact transform_ident_eq st aspan aop lop hop ident c
  · intro mspan obj prop c hobj
    exact transform_static_trivial_eq st aspan aop lop hop mspan obj prop c hobj
  · intro mspan obj prop c hobj
    exact transform_static_memo_eq st aspan aop lop hop mspan obj prop c hobj
  · intro mspan obj key c hobj hkey
    exact transform_computed_both_trivial_eq st aspan aop lop hop mspan obj key c hobj hkey
  · intro mspan obj key c hobj hkey
    exact transform_computed_obj_memo_eq st aspan aop lop hop mspan obj key c hobj hkey
  · intro mspan obj key c hobj hkey
    exact transform_computed_key_memo_eq st aspan aop lop hop mspan obj key c hobj hkey
  · intro mspan obj key c hobj hkey
    exact transform_computed_both_memo_eq st aspan aop lop hop mspan obj key c hobj hkey

/-- Witness for C10 at the concrete input `a[g()] &&= c` (computed member,
trivial object, memoised key): the memoization assignment `_k = g()` and the
minted identifier carry the default span, the member node keeps its span, and
object, key and right-hand side keep theirs. -/
theorem transform_synthesized_spans_witness :
    transform_expression { vars := [], uid := 0 }
      (Expression.assignmentExpr (AssignmentExpression.mk { start := 0, stop := 13 }
        AssignmentOperator.LogicalAnd
        (AssignmentTarget.simpleAssignmentTarget
          (SimpleAssignmentTarget.memberAssignmentTarget
            (MemberExpression.computedMemberExpression { start := 0, stop := 8 }
              (Expression.identifierReferenceExpr { span := { start := 0, stop := 1 }, name := "a" })
              (Expression.otherExpr { start := 2, stop := 5 } 11))))
        (Expression.otherExpr { start := 12, stop := 13 } 9))) =
    (Expression.logicalExpr Span.default
      (Expression.memberExpr (MemberExpression.computedMemberExpression { start := 0, stop := 8 }
        (Expression.identifierReferenceExpr { span := { start := 0, stop := 1 }, name := "a" })
        (Expression.assignmentExpr (AssignmentExpression.mk Span.default
          AssignmentOperator.Assign
          (AssignmentTarget.simpleAssignmentTarget
            (SimpleAssignmentTarget.assignmentTargetIdentifier
              { span := Span.default, name := "_t0" }))
          (Expression.otherExpr { start := 2, stop := 5 } 11))))) LogicalOperator.And
      (Expression.assignmentExpr (AssignmentExpression.mk Span.default
        AssignmentOperator.Assign
        (AssignmentTarget.simpleAssignmentTarget
          (SimpleAssignmentTarget.memberAssignmentTarget
            (MemberExpression.computedMemberExpression { start := 0, stop := 8 }
              (Expression.identifierReferenceExpr { span := { start := 0, stop := 1 }, name := "a" })
              (Expression.identifierReferenceExpr { span := Span.default, name := "_t0" }))))
        (Expression.otherExpr { start := 12, stop := 13 } 9))),
     { vars := [{ name := "_t0" }], uid := 1 }) :=
  (transform_synthesized_spans { vars := [], uid := 0 } { start := 0, stop := 13 }
    AssignmentOperator.LogicalAnd LogicalOperator.And
    (Or.inl ⟨rfl, rfl⟩)).2.2.2.2.2.1 { start := 0, stop := 8 }
    (Expression.identifierReferenceExpr { span := { start := 0, stop := 1 }, name := "a" })
    (Expression.otherExpr { start := 2, stop := 5 } 11)
    (Expression.otherExpr { start := 12, stop := 13 } 9) rfl rfl

end LogicalAssignOps
